import Mathlib

/-!
Shallow embedding of the tex2png repository (src/tex2png-server.js and
src/tex2png.js) for checking its natural-language specification.

Strings are modelled as `List Char`.  JavaScript string primitives used by
the source (`startsWith`, `endsWith`, `slice`, `trim`, `parseInt`) are
embedded with their ECMAScript semantics.  The stateful request handler and
the PID-file check are embedded as pure functions over explicit environment
records (file system reads/writes and the typesetting and rasterizing
libraries become function-valued parameters; exceptions become `Except`).
-/

namespace Tex2Png

/-- ECMAScript WhiteSpace and LineTerminator code points, the set removed by
JavaScript `String.prototype.trim`. -/
def jsIsWhiteChar (c : Char) : Bool :=
  c.toNat = 0x9 || c.toNat = 0xA || c.toNat = 0xB || c.toNat = 0xC ||
  c.toNat = 0xD || c.toNat = 0x20 || c.toNat = 0xA0 || c.toNat = 0x1680 ||
  (0x2000 ≤ c.toNat && c.toNat ≤ 0x200A) ||
  c.toNat = 0x2028 || c.toNat = 0x2029 || c.toNat = 0x202F ||
  c.toNat = 0x205F || c.toNat = 0x3000 || c.toNat = 0xFEFF

/-- JavaScript `String.prototype.trim`: strip whitespace from both ends. -/
def jsTrim (s : List Char) : List Char :=
  ((s.dropWhile jsIsWhiteChar).reverse.dropWhile jsIsWhiteChar).reverse

/-- JavaScript `s.startsWith(p)`. -/
def jsStartsWith (s p : List Char) : Bool :=
  s.take p.length == p

/-- JavaScript `s.endsWith(p)`.  When `p` is longer than `s` the truncated
subtraction gives `drop 0 = s`, whose length differs from `p`, so the
comparison is `false`, matching ECMAScript. -/
def jsEndsWith (s p : List Char) : Bool :=
  s.drop (s.length - p.length) == p

/-- JavaScript `s.slice(start, stop)` with ECMAScript clamping of negative
and out-of-range indices. -/
def jsSlice (s : List Char) (start stop : Int) : List Char :=
  let len : Int := s.length
  let a : Int := if start < 0 then max (len + start) 0 else min start len
  let b : Int := if stop < 0 then max (len + stop) 0 else min stop len
  (s.take b.toNat).drop a.toNat

/-- Result record of `processMathContent` in src/tex2png-server.js:
`{ content, display }`. -/
structure MathContent where
  content : List Char
  display : Bool
deriving DecidableEq, Repr

/-- Embedding of `processMathContent` (src/tex2png-server.js lines 192-227),
including the source's duplicated branch inside the display case. -/
def processMathContent (content : List Char) : MathContent :=
  let isDisplayMath :=
    (jsStartsWith content ("$$".data) && jsEndsWith content ("$$".data)) ||
    (jsStartsWith content ("\\[".data) && jsEndsWith content ("\\]".data))
  let isInlineMath :=
    (jsStartsWith content ("$".data) && jsEndsWith content ("$".data)) ||
    (jsStartsWith content ("\\(".data) && jsEndsWith content ("\\)".data))
  if isDisplayMath then
    if jsStartsWith content ("$$".data) then
      { content := jsTrim (jsSlice content 2 (-2)), display := true }
    else
      { content := jsTrim (jsSlice content 2 (-2)), display := true }
  else if isInlineMath then
    if jsStartsWith content ("$".data) then
      { content := jsTrim (jsSlice content 1 (-1)), display := false }
    else
      { content := jsTrim (jsSlice content 2 (-2)), display := false }
  else
    { content := content, display := true }

/-- For a positive count `k`, `slice(k, -k)` removes the `k`-character head
and the `k`-character tail (clamped on short inputs). -/
lemma jsSlice_strip (k : Nat) (hk : 0 < k) (s : List Char) :
    jsSlice s k (-(k : Int)) = (s.drop k).rdrop k := by
  have hnn : ¬ ((k : Int) < 0) := by omega
  have hneg : (-(k : Int)) < 0 := by omega
  simp only [jsSlice, hnn, if_false, hneg, if_true]
  have ha : (min (k : Int) ((s.length : Nat) : Int)).toNat = min k s.length := by omega
  have hb : (max (((s.length : Nat) : Int) + -(k : Int)) 0).toNat = s.length - k := by omega
  rw [ha, hb, List.drop_take]
  rcases Nat.le_total k s.length with h | h
  · rw [Nat.min_eq_left h]
    simp [List.rdrop, List.length_drop]
  · rw [Nat.min_eq_right h]
    have h1 : s.length - k = 0 := by omega
    have h2 : s.drop k = [] := List.drop_eq_nil_of_le h
    simp [h1, h2, List.rdrop]

/-- Instance of `jsSlice_strip` for the two-character delimiters. -/
lemma jsSlice_two (s : List Char) : jsSlice s 2 (-2) = (s.drop 2).rdrop 2 :=
  jsSlice_strip 2 (by omega) s

/-- Instance of `jsSlice_strip` for the one-character delimiters. -/
lemma jsSlice_one (s : List Char) : jsSlice s 1 (-1) = (s.drop 1).rdrop 1 :=
  jsSlice_strip 1 (by omega) s

/-- Shared helper: when none of the four delimiter patterns matches,
`processMathContent` is the identity with display mode `true`. -/
lemma processMathContent_eq_of_no_delims (s : List Char)
    (h1 : (jsStartsWith s ("$$".data) && jsEndsWith s ("$$".data)) = false)
    (h2 : (jsStartsWith s ("\\[".data) && jsEndsWith s ("\\]".data)) = false)
    (h3 : (jsStartsWith s ("$".data) && jsEndsWith s ("$".data)) = false)
    (h4 : (jsStartsWith s ("\\(".data) && jsEndsWith s ("\\)".data)) = false) :
    processMathContent s = { content := s, display := true } := by
  simp [processMathContent, h1, h2, h3, h4]

/-- Claim C1 (counterexample): the claim asserts that the string made of
dollar-dollar, x, dollar is returned unchanged with display mode true, but
the code treats it as inline math (it both starts and ends with a single
dollar), returning the x preceded by one dollar with display mode false. -/
theorem processMathContent_cex_dollars_single :
    processMathContent ("$$x$".data) = { content := ("$x".data), display := false } ∧
      processMathContent ("$$x$".data) ≠ { content := ("$$x$".data), display := true } := by
  constructor
  · decide
  · decide

/-- Claim C1 (amended): for every input string matching none of the four
delimiter patterns of the code, `processMathContent` returns the content
unchanged and reports display mode true. -/
theorem processMathContent_no_delims (s : List Char)
    (h1 : (jsStartsWith s ("$$".data) && jsEndsWith s ("$$".data)) = false)
    (h2 : (jsStartsWith s ("\\[".data) && jsEndsWith s ("\\]".data)) = false)
    (h3 : (jsStartsWith s ("$".data) && jsEndsWith s ("$".data)) = false)
    (h4 : (jsStartsWith s ("\\(".data) && jsEndsWith s ("\\)".data)) = false) :
    processMathContent s = { content := s, display := true } :=
  processMathContent_eq_of_no_delims s h1 h2 h3 h4

/-- Claim C1 witness: the plain string x matches no delimiter pattern and
passes through verbatim with display mode true. -/
theorem processMathContent_no_delims_witness :
    (jsStartsWith ("x".data) ("$$".data) && jsEndsWith ("x".data) ("$$".data)) = false ∧
      processMathContent ("x".data) = { content := ("x".data), display := true } :=
  ⟨by decide,
    processMathContent_no_delims ("x".data) (by decide) (by decide) (by decide) (by decide)⟩

/-- Claim C2: every string of length at least 4 that both starts and ends
with dollar-dollar is normalized to display mode with the two-character
affixes removed and the remainder trimmed. -/
theorem processMathContent_display_dollars (s : List Char)
    (hlen : 4 ≤ s.length)
    (h1 : jsStartsWith s ("$$".data) = true)
    (h2 : jsEndsWith s ("$$".data) = true) :
    processMathContent s = { content := jsTrim ((s.drop 2).rdrop 2), display := true } := by
  simp [processMathContent, h1, h2, jsSlice_two]

/-- Claim C2 witness: dollar-dollar, blank, x, blank, dollar-dollar. -/
theorem processMathContent_display_dollars_witness :
    4 ≤ ("$$ x $$".data).length ∧
      processMathContent ("$$ x $$".data) =
        { content := jsTrim (((("$$ x $$".data)).drop 2).rdrop 2), display := true } :=
  ⟨by decide,
    processMathContent_display_dollars ("$$ x $$".data) (by decide) (by decide) (by decide)⟩

/-- Claim C3: every string that both starts and ends with a dollar yet is
not display-wrapped is normalized to inline mode with the one-character
affixes removed and the remainder trimmed. -/
theorem processMathContent_inline_dollar (s : List Char)
    (h1 : jsStartsWith s ("$".data) = true)
    (h2 : jsEndsWith s ("$".data) = true)
    (hd1 : (jsStartsWith s ("$$".data) && jsEndsWith s ("$$".data)) = false)
    (hd2 : (jsStartsWith s ("\\[".data) && jsEndsWith s ("\\]".data)) = false) :
    processMathContent s = { content := jsTrim ((s.drop 1).rdrop 1), display := false } := by
  simp [processMathContent, h1, h2, hd1, hd2, jsSlice_one]

/-- Claim C3 witness: dollar, x, dollar. -/
theorem processMathContent_inline_dollar_witness :
    jsStartsWith ("$x$".data) ("$".data) = true ∧
      processMathContent ("$x$".data) =
        { content := jsTrim (((("$x$".data)).drop 1).rdrop 1), display := false } :=
  ⟨by decide,
    processMathContent_inline_dollar ("$x$".data) (by decide) (by decide) (by decide)
      (by decide)⟩

/-- Claim C4: on delimiter-free input the normalizer is the identity with
display mode true, hence idempotent: re-normalizing its own output changes
nothing. -/
theorem processMathContent_idempotent (s : List Char)
    (h1 : (jsStartsWith s ("$$".data) && jsEndsWith s ("$$".data)) = false)
    (h2 : (jsStartsWith s ("\\[".data) && jsEndsWith s ("\\]".data)) = false)
    (h3 : (jsStartsWith s ("$".data) && jsEndsWith s ("$".data)) = false)
    (h4 : (jsStartsWith s ("\\(".data) && jsEndsWith s ("\\)".data)) = false) :
    processMathContent s = { content := s, display := true } ∧
      processMathContent ((processMathContent s).content) = processMathContent s := by
  have h := processMathContent_eq_of_no_delims s h1 h2 h3 h4
  refine ⟨h, ?_⟩
  simp [h]

/-- Claim C4 witness: an equation-like plain string with no delimiters. -/
theorem processMathContent_idempotent_witness :
    (jsStartsWith ("E=mc^2".data) ("$".data) && jsEndsWith ("E=mc^2".data) ("$".data)) = false ∧
      processMathContent ("E=mc^2".data) = { content := ("E=mc^2".data), display := true } ∧
      processMathContent ((processMathContent ("E=mc^2".data)).content) =
        processMathContent ("E=mc^2".data) := by
  have h := processMathContent_idempotent ("E=mc^2".data) (by decide) (by decide) (by decide)
    (by decide)
  exact ⟨by decide, h.1, h.2⟩

/-- Claim C9: the degenerate strings of two and of three dollars both start
and end with dollar-dollar via overlapping occurrences; the code takes the
display branch and returns the empty content with display mode true. -/
theorem processMathContent_degenerate_dollars :
    processMathContent ("$$".data) = { content := [], display := true } ∧
      processMathContent ("$$$".data) = { content := [], display := true } := by
  constructor
  · decide
  · decide

/-- Default color of src/tex2png-server.js line 16. -/
def defaultColor : List Char := ("#8ec07c".data)

/-- Default font size of src/tex2png-server.js line 17. -/
def defaultFontSize : Int := 30

/-- The rasterizer font options record passed to the Resvg constructor. -/
structure ResvgFont where
  loadSystemFonts : Bool
  defaultFontFamily : List Char
  defaultFontSize : Int
deriving DecidableEq

/-- The `opts` value built at src/tex2png-server.js lines 134-140:
system fonts disabled, the fixed fallback family, and the request font size
raised by 5 exactly in display mode. -/
def renderFontOpts (fontSize : Int) (display : Bool) : ResvgFont :=
  { loadSystemFonts := false
    defaultFontFamily := ("Latin Modern Math".data)
    defaultFontSize := fontSize + (if display then 5 else 0) }

/-- JSON body of a POST to the render endpoint; absent fields are `none`
(the source destructures them with defaults). -/
structure RenderBody where
  inputFile : Option (List Char)
  outFile : Option (List Char)
  color : Option (List Char)
  fontSize : Option Int
deriving DecidableEq

/-- Environment of the render handler: the file system and the external
typesetting and rasterizing libraries.  Calls the source wraps in its
try/catch are modelled as `Except`, the error carrying the thrown message. -/
structure RenderEnv where
  readFile : List Char → Except (List Char) (List Char)
  tex2svg : List Char → Bool → Except (List Char) (List Char)
  applyColor : List Char → List Char → List Char
  rasterize : List Char → ResvgFont → Except (List Char) (List Char)
  writeFile : List Char → List Char → Except (List Char) Unit

/-- JSON payload of a response from the render endpoint. -/
inductive JsonBody where
  | success (file : List Char)
  | error (msg : List Char)
deriving DecidableEq

/-- HTTP response: status code plus JSON payload. -/
structure HttpResponse where
  status : Nat
  body : JsonBody
deriving DecidableEq

/-- Embedding of the render endpoint handler, src/tex2png-server.js lines
102-152.  JavaScript falsiness of the input-file field covers both an
absent field and the empty string.  The file content is trimmed before
normalization, as at line 118. -/
def renderHandler (env : RenderEnv) (body : RenderBody) : HttpResponse :=
  let outFile := body.outFile.getD ("output.png".data)
  let color := body.color.getD defaultColor
  let fontSize := body.fontSize.getD defaultFontSize
  match body.inputFile with
  | none => { status := 400, body := JsonBody.error ("inputFile is required".data) }
  | some f =>
    if f.isEmpty then
      { status := 400, body := JsonBody.error ("inputFile is required".data) }
    else
      match env.readFile f with
      | Except.error msg =>
        { status := 400,
          body := JsonBody.error (("Error reading input file: ".data) ++ msg) }
      | Except.ok raw =>
        let mc := processMathContent (jsTrim raw)
        match env.tex2svg mc.content mc.display with
        | Except.error msg => { status := 500, body := JsonBody.error msg }
        | Except.ok svg =>
          let svgString := env.applyColor svg color
          match env.rasterize svgString (renderFontOpts fontSize mc.display) with
          | Except.error msg => { status := 500, body := JsonBody.error msg }
          | Except.ok png =>
            match env.writeFile outFile png with
            | Except.error msg => { status := 500, body := JsonBody.error msg }
            | Except.ok _ => { status := 200, body := JsonBody.success outFile }

/-- A response is structured: 200 with a success payload, or 400 or 500
with an error payload. -/
def structuredResponse (r : HttpResponse) : Bool :=
  match r.status, r.body with
  | 200, JsonBody.success _ => true
  | 400, JsonBody.error _ => true
  | 500, JsonBody.error _ => true
  | _, _ => false

/-- Claim C5: the rasterizer options disable system font loading, fix the
fallback font family, and set the default font size to the request's font
size plus 5 in display mode and exactly the request's font size in inline
mode.  `renderHandler` invokes the rasterizer with `renderFontOpts`. -/
theorem renderFontOpts_spec (fontSize : Int) (display : Bool) :
    (renderFontOpts fontSize display).loadSystemFonts = false ∧
      (renderFontOpts fontSize display).defaultFontFamily = ("Latin Modern Math".data) ∧
      (renderFontOpts fontSize true).defaultFontSize = fontSize + 5 ∧
      (renderFontOpts fontSize false).defaultFontSize = fontSize := by
  refine ⟨rfl, rfl, rfl, ?_⟩
  simp [renderFontOpts]

/-- Claim C6: a render request without the input-file field is answered
with status 400 and an error naming the field, and the answer is the same
under every environment, so no file is read and nothing is rendered. -/
theorem renderHandler_missing_inputFile (env : RenderEnv) (body : RenderBody)
    (h : body.inputFile = none) :
    renderHandler env body =
        { status := 400, body := JsonBody.error ("inputFile is required".data) } ∧
      ∀ env2 : RenderEnv, renderHandler env2 body = renderHandler env body := by
  constructor
  · simp [renderHandler, h]
  · intro env2
    simp [renderHandler, h]

/-- A concrete environment whose file read fails. -/
def envReadErr : RenderEnv :=
  { readFile := fun _ => Except.error ("ENOENT".data)
    tex2svg := fun _ _ => Except.ok ("svg".data)
    applyColor := fun svg _ => svg
    rasterize := fun _ _ => Except.ok ("png".data)
    writeFile := fun _ _ => Except.ok () }

/-- A concrete environment whose typesetting call throws. -/
def envSvgErr : RenderEnv :=
  { envReadErr with
    readFile := fun _ => Except.ok ("$$y$$".data)
    tex2svg := fun _ _ => Except.error ("tex error".data) }

/-- A concrete environment whose rasterizing call throws. -/
def envRastErr : RenderEnv :=
  { envReadErr with
    readFile := fun _ => Except.ok ("$$y$$".data)
    rasterize := fun _ _ => Except.error ("raster error".data) }

/-- A concrete environment whose output write throws. -/
def envWriteErr : RenderEnv :=
  { envReadErr with
    readFile := fun _ => Except.ok ("$$y$$".data)
    writeFile := fun _ _ => Except.error ("write error".data) }

/-- A concrete request body naming an input file. -/
def bodyIn : RenderBody :=
  { inputFile := some ("in.tex".data), outFile := none, color := none, fontSize := none }

/-- A concrete request body missing the input file. -/
def bodyNoInput : RenderBody :=
  { inputFile := none, outFile := none, color := none, fontSize := none }

/-- Claim C6 witness: the concrete request without an input file. -/
theorem renderHandler_missing_inputFile_witness :
    renderHandler envReadErr bodyNoInput =
      { status := 400, body := JsonBody.error ("inputFile is required".data) } :=
  (renderHandler_missing_inputFile envReadErr bodyNoInput rfl).1

/-- Claim C7: the handler answers every request with a structured response
and never escapes: always status 200 with a success payload or status 400
or 500 with an error payload; a failing file read yields 400 carrying the
read failure message; a throwing typesetting, rasterization, or output
write yields 500 carrying the thrown message. -/
theorem renderHandler_total_structured :
    (∀ (env : RenderEnv) (body : RenderBody),
      structuredResponse (renderHandler env body) = true)
    ∧ (∀ (env : RenderEnv) (body : RenderBody) (f m : List Char),
        body.inputFile = some f → f.isEmpty = false →
        env.readFile f = Except.error m →
        renderHandler env body =
          { status := 400,
            body := JsonBody.error (("Error reading input file: ".data) ++ m) })
    ∧ (∀ (env : RenderEnv) (body : RenderBody) (f raw m : List Char),
        body.inputFile = some f → f.isEmpty = false →
        env.readFile f = Except.ok raw →
        env.tex2svg (processMathContent (jsTrim raw)).content
            (processMathContent (jsTrim raw)).display = Except.error m →
        renderHandler env body = { status := 500, body := JsonBody.error m })
    ∧ (∀ (env : RenderEnv) (body : RenderBody) (f raw svg m : List Char),
        body.inputFile = some f → f.isEmpty = false →
        env.readFile f = Except.ok raw →
        env.tex2svg (processMathContent (jsTrim raw)).content
            (processMathContent (jsTrim raw)).display = Except.ok svg →
        env.rasterize (env.applyColor svg (body.color.getD defaultColor))
            (renderFontOpts (body.fontSize.getD defaultFontSize)
              (processMathContent (jsTrim raw)).display) = Except.error m →
        renderHandler env body = { status := 500, body := JsonBody.error m })
    ∧ (∀ (env : RenderEnv) (body : RenderBody) (f raw svg png m : List Char),
        body.inputFile = some f → f.isEmpty = false →
        env.readFile f = Except.ok raw →
        env.tex2svg (processMathContent (jsTrim raw)).content
            (processMathContent (jsTrim raw)).display = Except.ok svg →
        env.rasterize (env.applyColor svg (body.color.getD defaultColor))
            (renderFontOpts (body.fontSize.getD defaultFontSize)
              (processMathContent (jsTrim raw)).display) = Except.ok png →
        env.writeFile (body.outFile.getD ("output.png".data)) png = Except.error m →
        renderHandler env body = { status := 500, body := JsonBody.error m }) := by
  refine ⟨?_, ?_, ?_, ?_, ?_⟩
  · intro env body
    cases hif : body.inputFile with
    | none => simp [renderHandler, hif, structuredResponse]
    | some f =>
      by_cases hf : f.isEmpty
      · simp [renderHandler, hif, hf, structuredResponse]
      · cases hread : env.readFile f with
        | error m => simp [renderHandler, hif, hf, hread, structuredResponse]
        | ok raw =>
          cases hsvg : env.tex2svg (processMathContent (jsTrim raw)).content
              (processMathContent (jsTrim raw)).display with
          | error m => simp [renderHandler, hif, hf, hread, hsvg, structuredResponse]
          | ok svg =>
            cases hrast : env.rasterize (env.applyColor svg (body.color.getD defaultColor))
                (renderFontOpts (body.fontSize.getD defaultFontSize)
                  (processMathContent (jsTrim raw)).display) with
            | error m =>
              simp [renderHandler, hif, hf, hread, hsvg, hrast, structuredResponse]
            | ok png =>
              cases hwrite : env.writeFile (body.outFile.getD ("output.png".data)) png with
              | error m =>
                simp [renderHandler, hif, hf, hread, hsvg, hrast, hwrite, structuredResponse]
              | ok u =>
                simp [renderHandler, hif, hf, hread, hsvg, hrast, hwrite, structuredResponse]
  · intro env body f m hf hemp hread
    simp [renderHandler, hf, hemp, hread]
  · intro env body f raw m hf hemp hread hsvg
    simp [renderHandler, hf, hemp, hread, hsvg]
  · intro env body f raw svg m hf hemp hread hsvg hrast
    simp [renderHandler, hf, hemp, hread, hsvg, hrast]
  · intro env body f raw svg png m hf hemp hread hsvg hrast hwrite
    simp [renderHandler, hf, hemp, hread, hsvg, hrast, hwrite]

/-- Claim C7 witness: concrete environments exercising each failure class
and a structured-response check. -/
theorem renderHandler_total_structured_witness :
    structuredResponse (renderHandler envReadErr bodyIn) = true ∧
      renderHandler envReadErr bodyIn =
        { status := 400,
          body := JsonBody.error (("Error reading input file: ".data) ++ ("ENOENT".data)) } ∧
      renderHandler envSvgErr bodyIn =
        { status := 500, body := JsonBody.error ("tex error".data) } ∧
      renderHandler envRastErr bodyIn =
        { status := 500, body := JsonBody.error ("raster error".data) } ∧
      renderHandler envWriteErr bodyIn =
        { status := 500, body := JsonBody.error ("write error".data) } :=
  ⟨renderHandler_total_structured.1 envReadErr bodyIn,
    renderHandler_total_structured.2.1 envReadErr bodyIn ("in.tex".data) ("ENOENT".data)
      rfl (by decide) rfl,
    renderHandler_total_structured.2.2.1 envSvgErr bodyIn ("in.tex".data) ("$$y$$".data)
      ("tex error".data) rfl (by decide) rfl rfl,
    renderHandler_total_structured.2.2.2.1 envRastErr bodyIn ("in.tex".data) ("$$y$$".data)
      ("svg".data) ("raster error".data) rfl (by decide) rfl rfl rfl,
    renderHandler_total_structured.2.2.2.2 envWriteErr bodyIn ("in.tex".data) ("$$y$$".data)
      ("svg".data) ("png".data) ("write error".data) rfl (by decide) rfl rfl rfl rfl⟩

/-- Numeric value of a nonempty list of decimal digits. -/
def digitsVal (ds : List Char) : Nat :=
  ds.foldl (fun acc c => acc * 10 + (c.toNat - 48)) 0

/-- JavaScript `parseInt(s)` restricted to radix 10 as the source uses it:
skip leading whitespace, an optional sign, then the longest run of decimal
digits; `none` models NaN.  (Node's `process.kill` rejects NaN with a
thrown range error, which the source's catch treats like a dead process.) -/
def jsParseInt (s : List Char) : Option Int :=
  let t := s.dropWhile jsIsWhiteChar
  match t with
  | '-' :: rest =>
    let ds := rest.takeWhile Char.isDigit
    if ds.isEmpty then none else some (-(digitsVal ds : Int))
  | '+' :: rest =>
    let ds := rest.takeWhile Char.isDigit
    if ds.isEmpty then none else some ((digitsVal ds : Int))
  | _ =>
    let ds := t.takeWhile Char.isDigit
    if ds.isEmpty then none else some ((digitsVal ds : Int))

/-- State of the process-record file: `none` when absent, otherwise its
text content. -/
structure PidState where
  pidFileContents : Option (List Char)
deriving DecidableEq

/-- Outcome of the already-running check at the head of `startServer`:
either report the live process and return, or fall through to the fresh
start (macro loading, engine initialization, listener bind). -/
inductive StartPhase where
  | alreadyRunning (pid : Int)
  | proceedFresh
deriving DecidableEq

/-- Embedding of the already-running check of `startServer`
(src/tex2png-server.js lines 42-53): if the record file exists, parse its
pid and probe it with signal 0; a live pid returns immediately with the
state untouched, a dead pid (probe throws) deletes the record and proceeds;
an unparsable record also throws inside the try and is deleted. -/
def startServerCheck (alive : Int → Bool) (st : PidState) : StartPhase × PidState :=
  match st.pidFileContents with
  | some c =>
    match jsParseInt c with
    | some pid =>
      if alive pid then (StartPhase.alreadyRunning pid, st)
      else (StartPhase.proceedFresh, { pidFileContents := none })
    | none => (StartPhase.proceedFresh, { pidFileContents := none })
  | none => (StartPhase.proceedFresh, st)

/-- Claim C8: with an existing record naming pid, a successful zero-signal
probe reports already running and leaves the state unmodified without
proceeding to initialization, while a failing probe deletes the stale
record and proceeds with a fresh start. -/
theorem startServerCheck_spec (alive : Int → Bool) (st : PidState) (c : List Char) (pid : Int)
    (hfile : st.pidFileContents = some c) (hpid : jsParseInt c = some pid) :
    (alive pid = true →
      startServerCheck alive st = (StartPhase.alreadyRunning pid, st)) ∧
    (alive pid = false →
      startServerCheck alive st = (StartPhase.proceedFresh, { pidFileContents := none })) := by
  constructor <;> intro h <;> simp [startServerCheck, hfile, hpid, h]

/-- Claim C8 witness: a record holding 1234 under an all-alive probe and
under an all-dead probe. -/
theorem startServerCheck_spec_witness :
    startServerCheck (fun _ => true) { pidFileContents := some ("1234".data) } =
        (StartPhase.alreadyRunning 1234, { pidFileContents := some ("1234".data) }) ∧
      startServerCheck (fun _ => false) { pidFileContents := some ("1234".data) } =
        (StartPhase.proceedFresh, { pidFileContents := none }) :=
  ⟨(startServerCheck_spec (fun _ => true) { pidFileContents := some ("1234".data) }
      ("1234".data) 1234 rfl (by decide)).1 rfl,
    (startServerCheck_spec (fun _ => false) { pidFileContents := some ("1234".data) }
      ("1234".data) 1234 rfl (by decide)).2 rfl⟩

/-- A macro definition: expansion template and argument count, the
two-element arrays of the source. -/
abbrev MacroDef := List Char × Nat

/-- The built-in macro object of src/tex2png-server.js lines 22-26,
modelled as a partial map from macro name to definition. -/
def defaultMacros : List Char → Option MacroDef := fun k =>
  if k = ("bm".data) then some (("\\boldsymbol\x7b#1\x7d".data), 1)
  else if k = ("tag".data) then some (("\\qquad (\\mathrm\x7b#1\x7d)".data), 1)
  else none

/-- JavaScript object spread of two objects-as-maps: keys of the second
operand win. -/
def jsSpread (a b : List Char → Option MacroDef) : List Char → Option MacroDef := fun k =>
  match b k with
  | some v => some v
  | none => a k

/-- The merged macro configuration passed to the typesetting engine at
src/tex2png-server.js line 92; spreading an absent custom object (the
source's `undefined`) contributes nothing. -/
def startupMacros (custom : Option (List Char → Option MacroDef)) :
    List Char → Option MacroDef :=
  match custom with
  | some m => jsSpread defaultMacros m
  | none => jsSpread defaultMacros (fun _ => none)

/-- Claim C10: in the merged macro configuration a user-supplied definition
replaces the built-in one of the same name, and every name the user does
not define keeps its built-in definition unchanged. -/
theorem startupMacros_override (user : List Char → Option MacroDef) (k : List Char) :
    (∀ v : MacroDef, user k = some v → startupMacros (some user) k = some v) ∧
      (user k = none → startupMacros (some user) k = defaultMacros k) := by
  constructor
  · intro v hv
    simp [startupMacros, jsSpread, hv]
  · intro hn
    simp [startupMacros, jsSpread, hn]

/-- A concrete user macro object overriding the built-in bm macro. -/
def userMacros : List Char → Option MacroDef := fun k =>
  if k = ("bm".data) then some (("\\mathbf\x7b#1\x7d".data), 1) else none

/-- Claim C10 witness: the user override of bm wins and the built-in tag
macro survives unchanged. -/
theorem startupMacros_override_witness :
    startupMacros (some userMacros) ("bm".data) = some (("\\mathbf\x7b#1\x7d".data), 1) ∧
      startupMacros (some userMacros) ("tag".data) = defaultMacros ("tag".data) :=
  ⟨(startupMacros_override userMacros ("bm".data)).1 (("\\mathbf\x7b#1\x7d".data), 1)
      (by decide),
    (startupMacros_override userMacros ("tag".data)).2 (by decide)⟩

end Tex2Png
